import Mathlib

/-!
Verification development for the users/posts REST server (`src/server.py`)
and its companion HTTP client (`src/client.py`).

The Python code is shallowly embedded: JSON values become the inductive
`Value`, Python dicts become insertion-ordered association lists, the
in-memory `Database` and every route handler (`do_GET`, `do_POST`,
`do_PUT`, `do_DELETE`) become pure Lean functions, and the client's
`_request` / `_request_with_retry` become total functions over a tagged
transport-outcome type.  Timestamps (`time.time()`) are threaded in as an
explicit `now : Nat` parameter and wrapped in the dedicated constructor
`Value.time`.
-/

/-- A JSON-style value as manipulated by the Python code: `None`, booleans,
integers, strings, timestamps (the floats produced by `time.time()`,
abstracted as naturals), arrays and objects. -/
inductive Value where
  | null
  | bool (b : Bool)
  | int (n : Int)
  | str (s : String)
  | time (t : Nat)
  | list (xs : List Value)
  | dict (entries : List (String × Value))

/-- A Python dict with string keys, modelled as an insertion-ordered
association list (as all dicts built by the server are). -/
abbrev Dict := List (String × Value)

/-- Lookup in an association list with arbitrary key type: the Python
`d.get(k)` / `d[k]`-when-present semantics (first binding wins; dicts built
by the code have unique keys). -/
def alistGet {κ α : Type} [DecidableEq κ] (d : List (κ × α)) (k : κ) : Option α :=
  match d with
  | [] => none
  | (k', v) :: t => if k' = k then some v else alistGet t k

/-- `d[k] = v` on an association list: replace the first binding of `k` in
place (Python dicts keep the key's position on overwrite), or append a new
binding at the end, as Python dict assignment does. -/
def alistSet {κ α : Type} [DecidableEq κ] (d : List (κ × α)) (k : κ) (v : α) : List (κ × α) :=
  match d with
  | [] => [(k, v)]
  | (k', v') :: t => if k' = k then (k', v) :: t else (k', v') :: alistSet t k v

/-- `dict.get(k)` on a string-keyed dict. -/
def dictGet (d : Dict) (k : String) : Option Value := alistGet d k

/-- `dict.get(k, default)`. -/
def dictGetD (d : Dict) (k : String) (dflt : Value) : Value := (dictGet d k).getD dflt

/-- `data.get(k)` as used by the handlers: a missing key yields Python
`None`, which coincides with JSON null in our model. -/
def pyGet (d : Dict) (k : String) : Value := (dictGet d k).getD .null

/-- `d.update(u)` on Python dicts: fold assignment over the entries of `u`
(existing keys are overwritten in place, new keys appended in order). -/
def dictUpdate (d : Dict) (u : Dict) : Dict :=
  u.foldl (fun acc kv => alistSet acc kv.1 kv.2) d

/-- Python truthiness (`if not name: ...`) on the values that can appear in
a parsed JSON body: `None`, `False`, `0`, `""`, `[]` and `{}` are falsy. -/
def truthy : Value → Bool
  | .null => false
  | .bool b => b
  | .int n => n != 0
  | .str s => s != ""
  | .time t => t != 0
  | .list xs => !xs.isEmpty
  | .dict d => !d.isEmpty

/-- Python `==` between a JSON scalar and an integer dict key, as used by
`author_id not in self.users` and `post['author_id'] == user_id`
(`True == 1`, `False == 0`, and a whole-valued float equals the int). -/
def valueEqInt : Value → Int → Bool
  | .int n, k => n == k
  | .bool b, k => (if b then (1 : Int) else 0) == k
  | .time t, k => (t : Int) == k
  | _, _ => false

/-- `author_id in self.users` (membership test against the integer keys of
the users dict). -/
def valueKeyMem (v : Value) (users : List (Int × Dict)) : Bool :=
  users.any (fun kv => valueEqInt v kv.1)

/-- The in-memory store of `src/server.py` (`class Database`). -/
structure Database where
  users : List (Int × Dict)
  posts : List (Int × Dict)
  next_user_id : Int
  next_post_id : Int

/-- `Database.__init__`: empty collections, both counters at 1. -/
def Database.init : Database := ⟨[], [], 1, 1⟩

/-- `Database.create_user`: assign the current `next_user_id`, build the
user dict in the source's key order, insert it, bump the counter, and
return the created record together with the new store. -/
def Database.create_user (db : Database) (name email age : Value) (now : Nat) :
    Dict × Database :=
  let user_id := db.next_user_id
  let user : Dict :=
    [("id", .int user_id), ("name", name), ("email", email), ("age", age),
     ("created_at", .time now)]
  (user, { db with users := alistSet db.users user_id user,
                   next_user_id := user_id + 1 })

/-- `Database.get_user`. -/
def Database.get_user (db : Database) (user_id : Int) : Option Dict :=
  alistGet db.users user_id

/-- `Database.get_all_users` (`list(self.users.values())`, insertion order). -/
def Database.get_all_users (db : Database) : List Dict := db.users.map (·.2)

/-- `Database.update_user`: `None` when the id is absent, otherwise merge
the updates into the stored dict with `dict.update` and return the merged
record together with the new store. -/
def Database.update_user (db : Database) (user_id : Int) (updates : Dict) :
    Option Dict × Database :=
  match alistGet db.users user_id with
  | none => (none, db)
  | some u =>
    let u' := dictUpdate u updates
    (some u', { db with users := alistSet db.users user_id u' })

/-- `Database.delete_user`: remove the binding when present and report
whether anything was deleted.  The counter is untouched. -/
def Database.delete_user (db : Database) (user_id : Int) : Bool × Database :=
  match alistGet db.users user_id with
  | some _ => (true, { db with users := db.users.filter (fun kv => kv.1 ≠ user_id) })
  | none => (false, db)

/-- `Database.create_post`: `None` when `author_id` is not a key of the
users dict; otherwise assign `next_post_id`, insert, bump the counter. -/
def Database.create_post (db : Database) (title content author_id : Value) (now : Nat) :
    Option Dict × Database :=
  if valueKeyMem author_id db.users then
    let post_id := db.next_post_id
    let post : Dict :=
      [("id", .int post_id), ("title", title), ("content", content),
       ("author_id", author_id), ("created_at", .time now)]
    (some post, { db with posts := alistSet db.posts post_id post,
                          next_post_id := post_id + 1 })
  else (none, db)

/-- `Database.get_post`. -/
def Database.get_post (db : Database) (post_id : Int) : Option Dict :=
  alistGet db.posts post_id

/-- `Database.get_all_posts`. -/
def Database.get_all_posts (db : Database) : List Dict := db.posts.map (·.2)

/-- `Database.get_user_posts`: the stored posts (in insertion order) whose
`author_id` field equals the given integer. -/
def Database.get_user_posts (db : Database) (user_id : Int) : List Dict :=
  (db.posts.map (·.2)).filter (fun p => valueEqInt (pyGet p "author_id") user_id)

/-- An HTTP response produced by the handler: status code plus the JSON
body handed to `_send_json_response`. -/
structure Resp where
  status : Nat
  body : Dict

/-- `HTTPRequestHandler._send_error`: the uniform error envelope (the
default status in the source is 400; callers pass 404/500 explicitly). -/
def errResp (message : String) (status : Nat) (now : Nat) : Resp :=
  ⟨status, [("success", .bool false), ("error", .str message), ("timestamp", .time now)]⟩

/-- `int(path_parts[i])` on the simple decimal forms (optional sign and
digits; other accepted Python spellings such as inner underscores or
surrounding whitespace are not exercised by the routes). `none` models the
`ValueError` branch. -/
def digitsVal (cs : List Char) : Option Nat :=
  if cs.isEmpty then none
  else cs.foldl (fun acc c =>
    match acc with
    | none => none
    | some n => if c.isDigit then some (n * 10 + (c.toNat - 48)) else none) (some 0)

/-- See `digitsVal`: Python `int(s)` returning `none` on `ValueError`. -/
def pyInt? (s : String) : Option Int :=
  match s.data with
  | '-' :: rest => (digitsVal rest).map (fun n => -(n : Int))
  | '+' :: rest => (digitsVal rest).map (fun n => (n : Int))
  | cs => (digitsVal cs).map (fun n => (n : Int))

/-- The static body of `GET /` (server info / capability listing). -/
def rootInfo : Dict :=
  [("success", .bool true),
   ("message", .str "HTTP Server is running!"),
   ("version", .str "1.0.0"),
   ("endpoints", .dict
     [("GET /", .str "Server info"),
      ("GET /users", .str "Get all users"),
      ("GET /users/{id}", .str "Get user by ID"),
      ("POST /users", .str "Create user"),
      ("PUT /users/{id}", .str "Update user"),
      ("DELETE /users/{id}", .str "Delete user"),
      ("GET /posts", .str "Get all posts"),
      ("GET /posts/{id}", .str "Get post by ID"),
      ("POST /posts", .str "Create post"),
      ("GET /users/{id}/posts", .str "Get user posts")])]

/-- `HTTPRequestHandler.do_GET` on the already-split non-empty path
segments (`_parse_path`; query parameters are parsed by the source but
used by no route).  `none` means the handler finished WITHOUT sending any
response: in the source the `users`/`posts` branches have no trailing
`else`, so an unmatched sub-path falls through silently.  GET routes never
raise, so the `except` branch producing a 500 is unreachable. -/
def do_GET (db : Database) (pathParts : List String) (now : Nat) : Option Resp :=
  match pathParts with
  | [] => some ⟨200, rootInfo⟩
  | p0 :: rest =>
    if p0 = "users" then
      match rest with
      | [] =>
        some ⟨200, [("success", .bool true),
                    ("data", .list (db.get_all_users.map .dict)),
                    ("count", .int db.get_all_users.length)]⟩
      | [idStr] =>
        match pyInt? idStr with
        | some user_id =>
          match db.get_user user_id with
          | some u =>
            if u.isEmpty then some (errResp "User not found" 404 now)
            else some ⟨200, [("success", .bool true), ("data", .dict u)]⟩
          | none => some (errResp "User not found" 404 now)
        | none => some (errResp "Invalid user ID" 400 now)
      | [idStr, seg2] =>
        if seg2 = "posts" then
          match pyInt? idStr with
          | some user_id =>
            some ⟨200, [("success", .bool true),
                        ("data", .list ((db.get_user_posts user_id).map .dict)),
                        ("count", .int (db.get_user_posts user_id).length)]⟩
          | none => some (errResp "Invalid user ID" 400 now)
        else none
      | _ => none
    else if p0 = "posts" then
      match rest with
      | [] =>
        some ⟨200, [("success", .bool true),
                    ("data", .list (db.get_all_posts.map .dict)),
                    ("count", .int db.get_all_posts.length)]⟩
      | [idStr] =>
        match pyInt? idStr with
        | some post_id =>
          match db.get_post post_id with
          | some p =>
            if p.isEmpty then some (errResp "Post not found" 404 now)
            else some ⟨200, [("success", .bool true), ("data", .dict p)]⟩
          | none => some (errResp "Post not found" 404 now)
        | none => some (errResp "Invalid post ID" 400 now)
      | _ => none
    else some (errResp "Endpoint not found" 404 now)

/-- `HTTPRequestHandler.do_POST`.  `body = none` models a missing or
unparsable JSON body (`_read_json_body` returning `None`). -/
def do_POST (db : Database) (pathParts : List String) (body : Option Dict) (now : Nat) :
    Database × Option Resp :=
  match body with
  | none => (db, some (errResp "Invalid JSON data" 400 now))
  | some data =>
    if pathParts = ["users"] then
      let name := pyGet data "name"
      let email := pyGet data "email"
      let age := pyGet data "age"
      if !truthy name || !truthy email then
        (db, some (errResp "Name and email are required" 400 now))
      else
        let (user, db') := db.create_user name email age now
        (db', some ⟨201, [("success", .bool true),
                          ("message", .str "User created successfully"),
                          ("data", .dict user)]⟩)
    else if pathParts = ["posts"] then
      let title := pyGet data "title"
      let content := pyGet data "content"
      let author_id := pyGet data "author_id"
      if !truthy title || !truthy content || !truthy author_id then
        (db, some (errResp "Title, content, and author_id are required" 400 now))
      else
        match db.create_post title content author_id now with
        | (some post, db') =>
          if post.isEmpty then (db', some (errResp "Author not found" 404 now))
          else (db', some ⟨201, [("success", .bool true),
                                 ("message", .str "Post created successfully"),
                                 ("data", .dict post)]⟩)
        | (none, db') => (db', some (errResp "Author not found" 404 now))
    else (db, some (errResp "Endpoint not found" 404 now))

/-- `HTTPRequestHandler.do_PUT`. -/
def do_PUT (db : Database) (pathParts : List String) (body : Option Dict) (now : Nat) :
    Database × Option Resp :=
  match body with
  | none => (db, some (errResp "Invalid JSON data" 400 now))
  | some data =>
    match pathParts with
    | [p0, idStr] =>
      if p0 = "users" then
        match pyInt? idStr with
        | some user_id =>
          match db.update_user user_id data with
          | (some updated_user, db') =>
            if updated_user.isEmpty then (db', some (errResp "User not found" 404 now))
            else (db', some ⟨200, [("success", .bool true),
                                   ("message", .str "User updated successfully"),
                                   ("data", .dict updated_user)]⟩)
          | (none, db') => (db', some (errResp "User not found" 404 now))
        | none => (db, some (errResp "Invalid user ID" 400 now))
      else (db, some (errResp "Endpoint not found" 404 now))
    | _ => (db, some (errResp "Endpoint not found" 404 now))

/-- `HTTPRequestHandler.do_DELETE`. -/
def do_DELETE (db : Database) (pathParts : List String) (now : Nat) :
    Database × Option Resp :=
  match pathParts with
  | [p0, idStr] =>
    if p0 = "users" then
      match pyInt? idStr with
      | some user_id =>
        match db.delete_user user_id with
        | (true, db') =>
          (db', some ⟨200, [("success", .bool true),
                            ("message", .str "User deleted successfully")]⟩)
        | (false, db') => (db', some (errResp "User not found" 404 now))
      | none => (db, some (errResp "Invalid user ID" 400 now))
    else (db, some (errResp "Endpoint not found" 404 now))
  | _ => (db, some (errResp "Endpoint not found" 404 now))

/-- The four HTTP methods dispatched by the handler. -/
inductive Method where
  | GET | POST | PUT | DELETE

/-- One inbound request as seen by a handler instance. -/
structure Request where
  method : Method
  pathParts : List String
  body : Option Dict

/-- One request served by the running server.  Per
`HTTPRequestHandler.__init__` (src/server.py lines 81-83) every handler
instance constructs its own fresh `Database()`, and `http.server` builds a
new handler per incoming connection, so each request is dispatched against
an empty store and the mutated store is discarded afterwards. -/
def handleRequest (req : Request) (now : Nat) : Option Resp :=
  let db := Database.init
  match req.method with
  | .GET => do_GET db req.pathParts now
  | .POST => (do_POST db req.pathParts req.body now).2
  | .PUT => (do_PUT db req.pathParts req.body now).2
  | .DELETE => (do_DELETE db req.pathParts now).2

/-- Outcome of `response.json()` inside `HTTPClient._request`: a JSON
object, some other valid JSON value, or a parse failure (the bare
`except` branch that falls back to `raw_response`). -/
inductive BodyParse where
  | jsonDict (d : Dict)
  | jsonNonDict (v : Value)
  | notJson (text : String)

/-- The raw transport result of one `session.request` call, tagged by the
exception hierarchy the source catches (in the source's order
`SSLError`, `ConnectionError`, `Timeout`, `Exception`), or a delivered
response with its status code and body-parse outcome. -/
inductive TransportResult where
  | sslError (detail : String)
  | connectionError (detail : String)
  | timeoutErr (detail : String)
  | otherError (detail : String)
  | response (status : Nat) (body : BodyParse)

/-- Python `str()` of the `AttributeError` raised when `response_data` is
not a dict and `.update` is called on it (caught by the outermost
`except Exception`). -/
def pyTypeName : Value → String
  | .null => "NoneType"
  | .bool _ => "bool"
  | .int _ => "int"
  | .str _ => "str"
  | .time _ => "float"
  | .list _ => "list"
  | .dict _ => "dict"

/-- See `pyTypeName`. -/
def attrErrorMessage (v : Value) : String :=
  "'" ++ pyTypeName v ++ "' object has no attribute 'update'"

/-- `HTTPClient._request` (src/client.py lines 41-92): one exchange,
every failure turned into data, never raising past this boundary.  A
delivered response has its parsed body (or `raw_response` wrapper)
extended with `_status_code` and `_success`; when the parsed body is valid
JSON but not an object, the `.update` call raises and the outermost
handler returns the generic error dict instead. -/
def clientRequest : TransportResult → Dict
  | .sslError d =>
    [("success", .bool false),
     ("error", .str ("SSL Error: " ++ d)),
     ("suggestion", .str "Try using --no-verify-ssl or provide correct certificate")]
  | .connectionError d =>
    [("success", .bool false),
     ("error", .str ("Connection Error: " ++ d)),
     ("suggestion", .str "Check if server is running and URL is correct")]
  | .timeoutErr d =>
    [("success", .bool false),
     ("error", .str ("Timeout Error: " ++ d)),
     ("suggestion", .str "Increase timeout or check network connection")]
  | .otherError d =>
    [("success", .bool false),
     ("error", .str ("Request Error: " ++ d))]
  | .response status body =>
    match body with
    | .jsonDict d =>
      dictUpdate d [("_status_code", .int status), ("_success", .bool (decide (status < 400)))]
    | .notJson text =>
      dictUpdate [("raw_response", .str text)]
        [("_status_code", .int status), ("_success", .bool (decide (status < 400)))]
    | .jsonNonDict v =>
      [("success", .bool false),
       ("error", .str ("Request Error: " ++ attrErrorMessage v))]

mutual

/-- Python `repr()` on JSON values (string escaping and float formatting
simplified to the plain forms; only ever applied to string-valued `error`
fields in the theorems below). -/
def pyRepr : Value → String
  | .null => "None"
  | .bool b => if b then "True" else "False"
  | .int n => toString n
  | .str s => "'" ++ s ++ "'"
  | .time t => toString t ++ ".0"
  | .list xs => "[" ++ pyReprList xs ++ "]"
  | .dict d => "\x7b" ++ pyReprDict d ++ "\x7d"

/-- See `pyRepr`. -/
def pyReprList : List Value → String
  | [] => ""
  | [v] => pyRepr v
  | v :: vs => pyRepr v ++ ", " ++ pyReprList vs

/-- See `pyRepr`. -/
def pyReprDict : List (String × Value) → String
  | [] => ""
  | [(k, v)] => "'" ++ k ++ "': " ++ pyRepr v
  | (k, v) :: t => "'" ++ k ++ "': " ++ pyRepr v ++ ", " ++ pyReprDict t

end

/-- Python `str()` on a value (`str(result.get('error', ''))`). -/
def pyStr : Value → String
  | .str s => s
  | v => pyRepr v

/-- Boolean list-prefix test (Python `startswith` over characters),
used to build the substring test below. -/
def prefixB : List Char → List Char → Bool
  | [], _ => true
  | _ :: _, [] => false
  | a :: as, b :: bs => a == b && prefixB as bs

/-- Python's `needle in haystack` substring test on strings, over their
character lists. -/
def containsSub (hay needle : List Char) : Bool :=
  match hay with
  | [] => needle.isEmpty
  | _ :: t => prefixB needle hay || containsSub t needle

/-- The `result.get('_status_code', 0) >= 500` test: only an integer (or a
numeric Python value) can satisfy it. -/
def valueGe500 : Value → Bool
  | .int n => decide (500 ≤ n)
  | .time t => decide (500 ≤ t)
  | _ => false

/-- The retry trigger of `SecureHTTPClient._request_with_retry`
(src/client.py lines 163-165): status code at least 500, or the
stringified `error` field containing the substring `Connection Error` or
the substring `Timeout`. -/
def shouldRetry (r : Dict) : Bool :=
  valueGe500 (dictGetD r "_status_code" (.int 0)) ||
  containsSub (pyStr (dictGetD r "error" (.str ""))).data "Connection Error".data ||
  containsSub (pyStr (dictGetD r "error" (.str ""))).data "Timeout".data

/-- Observable trace of one `_request_with_retry` call: how many attempts
(`_request` calls) were made, how many `time.sleep(self.retry_delay)`
delays elapsed, and the returned result — `none` marking the trailing
`return result` with `result` unbound (an `UnboundLocalError`), which
happens exactly when the loop body never ran. -/
structure RetryTrace where
  attempts : Nat
  sleeps : Nat
  result : Option Dict

/-- The body of `for attempt in range(self.max_retries)` in
`SecureHTTPClient._request_with_retry`, recursing on the number of loop
iterations still available (`remaining = max_retries - attempt`).  `f`
gives the `_request` outcome of each attempt. -/
def retryAux (f : Nat → Dict) (max_retries : Nat) :
    Nat → Nat → Nat → RetryTrace
  | 0, attempt, sleeps => ⟨attempt, sleeps, none⟩
  | remaining + 1, attempt, sleeps =>
    let result := f attempt
    if shouldRetry result && decide (attempt + 1 < max_retries) then
      retryAux f max_retries remaining (attempt + 1) (sleeps + 1)
    else
      ⟨attempt + 1, sleeps, some result⟩

/-- `SecureHTTPClient._request_with_retry` (src/client.py lines 157-174). -/
def requestWithRetry (f : Nat → Dict) (max_retries : Nat) : RetryTrace :=
  retryAux f max_retries max_retries 0 0

/-- The spec's retry trigger, by outcome classification: status code at
least 500, or a connection-establishment failure, or a timeout. -/
def retrySpecTrigger : TransportResult → Bool
  | .connectionError _ => true
  | .timeoutErr _ => true
  | .response st _ => decide (500 ≤ st)
  | _ => false

/-- A detail string that does not itself mention the marker substrings the
retry loop greps for. -/
def benignDetail (d : String) : Prop :=
  containsSub d.data "Connection Error".data = false ∧
  containsSub d.data "Timeout".data = false

/-- Transport results whose free-form parts do not accidentally contain
the retry loop's marker substrings (and whose body, for a delivered
response, is an object or unparsable, with at most a benign string under
`error`). -/
def benign : TransportResult → Prop
  | .sslError d => benignDetail d
  | .otherError d => benignDetail d
  | .connectionError _ => True
  | .timeoutErr _ => True
  | .response _ (.jsonDict d) =>
    match dictGet d "error" with
    | none => True
    | some (.str s) => benignDetail s
    | some _ => False
  | .response _ (.notJson _) => True
  | .response _ (.jsonNonDict _) => False

/-- One mutating Store call, for reasoning about whole operation
sequences against a single `Database` instance. -/
inductive DbOp where
  | createUser (name email age : Value) (now : Nat)
  | updateUser (user_id : Int) (updates : Dict)
  | deleteUser (user_id : Int)
  | createPost (title content author_id : Value) (now : Nat)

/-- Apply one Store call, keeping only the resulting store. -/
def applyOp (db : Database) : DbOp → Database
  | .createUser n e a t => (db.create_user n e a t).2
  | .updateUser uid u => (db.update_user uid u).2
  | .deleteUser uid => (db.delete_user uid).2
  | .createPost t c a n => (db.create_post t c a n).2

/-- The user ids handed out by `create_user` along an operation sequence,
in call order (`create_user` returns the dict whose `id` field is the
current `next_user_id`). -/
def userIdsOf (db : Database) : List DbOp → List Int
  | [] => []
  | op :: ops =>
    match op with
    | .createUser _ _ _ _ => db.next_user_id :: userIdsOf (applyOp db op) ops
    | _ => userIdsOf (applyOp db op) ops

/-- The post ids handed out by successful `create_post` calls along an
operation sequence, in call order (a call whose author is absent returns
`None` and assigns no id). -/
def postIdsOf (db : Database) : List DbOp → List Int
  | [] => []
  | op :: ops =>
    match op with
    | .createPost _ _ a _ =>
      if valueKeyMem a db.users then db.next_post_id :: postIdsOf (applyOp db op) ops
      else postIdsOf (applyOp db op) ops
    | _ => postIdsOf (applyOp db op) ops

/-! ### Association-list and dict lemmas -/

theorem alistGet_alistSet_self {κ α : Type} [DecidableEq κ]
    (d : List (κ × α)) (k : κ) (v : α) : alistGet (alistSet d k v) k = some v := by
  induction d with
  | nil => simp [alistGet, alistSet]
  | cons hd t ih =>
    by_cases h : hd.1 = k
    · simp [alistGet, alistSet, h]
    · simp [alistGet, alistSet, h, ih]

theorem alistGet_alistSet_ne {κ α : Type} [DecidableEq κ]
    (d : List (κ × α)) (k k' : κ) (v : α) (hne : k' ≠ k) :
    alistGet (alistSet d k v) k' = alistGet d k' := by
  have hkk : ¬k = k' := fun he => hne he.symm
  induction d with
  | nil => simp [alistGet, alistSet, hkk]
  | cons hd t ih =>
    by_cases h : hd.1 = k
    · simp [alistGet, alistSet, h, hkk]
    · simp [alistGet, alistSet, h, ih]

theorem dictGet_dictUpdate_not_mem (d u : Dict) (k : String)
    (h : k ∉ u.map Prod.fst) : dictGet (dictUpdate d u) k = dictGet d k := by
  induction u generalizing d with
  | nil => rfl
  | cons hd t ih =>
    simp only [List.map_cons, List.mem_cons, not_or] at h
    show dictGet (dictUpdate (alistSet d hd.1 hd.2) t) k = dictGet d k
    rw [ih _ h.2]
    exact alistGet_alistSet_ne d hd.1 k hd.2 h.1

theorem dictGet_dictUpdate_mem (d u : Dict) (k : String) (v : Value)
    (hmem : (k, v) ∈ u) (hnd : (u.map Prod.fst).Nodup) :
    dictGet (dictUpdate d u) k = some v := by
  induction u generalizing d with
  | nil => cases hmem
  | cons hd t ih =>
    simp only [List.map_cons, List.nodup_cons] at hnd
    rcases List.mem_cons.mp hmem with heq | hmem'
    · subst heq
      show dictGet (dictUpdate (alistSet d k v) t) k = some v
      rw [dictGet_dictUpdate_not_mem _ _ _ hnd.1]
      exact alistGet_alistSet_self d k v
    · exact ih _ hmem' hnd.2

/-! ### Substring lemmas -/

theorem prefixB_append_self (l r : List Char) : prefixB l (l ++ r) = true := by
  induction l with
  | nil => rfl
  | cons c t ih => simp [prefixB, ih]

theorem containsSub_of_prefixB (hay n : List Char) (h : prefixB n hay = true) :
    containsSub hay n = true := by
  cases hay with
  | nil =>
    cases n with
    | nil => rfl
    | cons c t => simp [prefixB] at h
  | cons a t => simp [containsSub, h]

theorem containsSub_append_self (n d : List Char) : containsSub (n ++ d) n = true :=
  containsSub_of_prefixB (n ++ d) n (prefixB_append_self n d)

theorem containsSub_append_not_head (p d : List Char) (c : Char) (n : List Char)
    (hc : c ∉ p) : containsSub (p ++ d) (c :: n) = containsSub d (c :: n) := by
  induction p with
  | nil => rfl
  | cons a t ih =>
    simp only [List.mem_cons, not_or] at hc
    have hca : (c == a) = false := beq_eq_false_iff_ne.mpr hc.1
    simp only [List.cons_append, containsSub, prefixB, hca, Bool.false_and, Bool.false_or]
    exact ih hc.2

/-! ### ID-counter lemmas -/

theorem next_user_id_update (db : Database) (uid : Int) (u : Dict) :
    (db.update_user uid u).2.next_user_id = db.next_user_id := by
  unfold Database.update_user
  split <;> rfl

theorem next_user_id_delete (db : Database) (uid : Int) :
    (db.delete_user uid).2.next_user_id = db.next_user_id := by
  unfold Database.delete_user
  split <;> rfl

theorem next_user_id_create_post (db : Database) (t c a : Value) (n : Nat) :
    (db.create_post t c a n).2.next_user_id = db.next_user_id := by
  unfold Database.create_post
  split <;> rfl

theorem next_user_id_create (db : Database) (nm e a : Value) (t : Nat) :
    (db.create_user nm e a t).2.next_user_id = db.next_user_id + 1 := rfl

theorem next_user_id_applyOp_le (db : Database) (op : DbOp) :
    db.next_user_id ≤ (applyOp db op).next_user_id := by
  cases op with
  | createUser nm e a t => rw [applyOp, next_user_id_create]; omega
  | updateUser uid u => rw [applyOp, next_user_id_update]
  | deleteUser uid => rw [applyOp, next_user_id_delete]
  | createPost t c a n => rw [applyOp, next_user_id_create_post]

theorem next_post_id_create_user (db : Database) (nm e a : Value) (t : Nat) :
    (db.create_user nm e a t).2.next_post_id = db.next_post_id := rfl

theorem next_post_id_update (db : Database) (uid : Int) (u : Dict) :
    (db.update_user uid u).2.next_post_id = db.next_post_id := by
  unfold Database.update_user
  split <;> rfl

theorem next_post_id_delete (db : Database) (uid : Int) :
    (db.delete_user uid).2.next_post_id = db.next_post_id := by
  unfold Database.delete_user
  split <;> rfl

theorem next_post_id_create_post (db : Database) (t c a : Value) (n : Nat) :
    (db.create_post t c a n).2.next_post_id =
      (if valueKeyMem a db.users then db.next_post_id + 1 else db.next_post_id) := by
  unfold Database.create_post
  split <;> simp_all

theorem next_post_id_applyOp_le (db : Database) (op : DbOp) :
    db.next_post_id ≤ (applyOp db op).next_post_id := by
  cases op with
  | createUser nm e a t => rw [applyOp, next_post_id_create_user]
  | updateUser uid u => rw [applyOp, next_post_id_update]
  | deleteUser uid => rw [applyOp, next_post_id_delete]
  | createPost t c a n =>
    rw [applyOp, next_post_id_create_post]
    split <;> omega

theorem mem_userIdsOf_le (ops : List DbOp) (db : Database) (x : Int)
    (hx : x ∈ userIdsOf db ops) : db.next_user_id ≤ x := by
  induction ops generalizing db with
  | nil => cases hx
  | cons op ops ih =>
    cases op with
    | createUser nm e a t =>
      rcases List.mem_cons.mp hx with h | h
      · omega
      · have h1 := ih _ h
        rw [applyOp, next_user_id_create] at h1
        omega
    | updateUser uid u =>
      have h1 := ih _ hx
      rwa [applyOp, next_user_id_update] at h1
    | deleteUser uid =>
      have h1 := ih _ hx
      rwa [applyOp, next_user_id_delete] at h1
    | createPost t c a n =>
      have h1 := ih _ hx
      rwa [applyOp, next_user_id_create_post] at h1

theorem mem_postIdsOf_le (ops : List DbOp) (db : Database) (x : Int)
    (hx : x ∈ postIdsOf db ops) : db.next_post_id ≤ x := by
  induction ops generalizing db with
  | nil => cases hx
  | cons op ops ih =>
    cases op with
    | createUser nm e a t =>
      have h1 := ih _ hx
      rwa [applyOp, next_post_id_create_user] at h1
    | updateUser uid u =>
      have h1 := ih _ hx
      rwa [applyOp, next_post_id_update] at h1
    | deleteUser uid =>
      have h1 := ih _ hx
      rwa [applyOp, next_post_id_delete] at h1
    | createPost t c a n =>
      by_cases hmem : valueKeyMem a db.users
      · rw [postIdsOf, if_pos hmem] at hx
        rcases List.mem_cons.mp hx with h | h
        · omega
        · have h1 := ih _ h
          rw [applyOp, next_post_id_create_post, if_pos hmem] at h1
          omega
      · rw [postIdsOf, if_neg hmem] at hx
        have h1 := ih _ hx
        rw [applyOp, next_post_id_create_post, if_neg hmem] at h1
        omega

theorem pairwise_userIdsOf (ops : List DbOp) (db : Database) :
    List.Pairwise (· < ·) (userIdsOf db ops) := by
  induction ops generalizing db with
  | nil => exact List.Pairwise.nil
  | cons op ops ih =>
    cases op with
    | createUser nm e a t =>
      refine List.pairwise_cons.mpr ⟨fun x hx => ?_, ih _⟩
      have h1 := mem_userIdsOf_le ops _ x hx
      rw [applyOp, next_user_id_create] at h1
      omega
    | updateUser uid u => exact ih _
    | deleteUser uid => exact ih _
    | createPost t c a n => exact ih _

theorem pairwise_postIdsOf (ops : List DbOp) (db : Database) :
    List.Pairwise (· < ·) (postIdsOf db ops) := by
  induction ops generalizing db with
  | nil => exact List.Pairwise.nil
  | cons op ops ih =>
    cases op with
    | createUser nm e a t => exact ih _
    | updateUser uid u => exact ih _
    | deleteUser uid => exact ih _
    | createPost t c a n =>
      by_cases hmem : valueKeyMem a db.users
      · rw [postIdsOf, if_pos hmem]
        refine List.pairwise_cons.mpr ⟨fun x hx => ?_, ih _⟩
        have h1 := mem_postIdsOf_le ops _ x hx
        rw [applyOp, next_post_id_create_post, if_pos hmem] at h1
        omega
      · rw [postIdsOf, if_neg hmem]
        exact ih _

theorem head?_userIdsOf (ops : List DbOp) (db : Database) :
    userIdsOf db ops = [] ∨ (userIdsOf db ops).head? = some db.next_user_id := by
  induction ops generalizing db with
  | nil => exact Or.inl rfl
  | cons op ops ih =>
    cases op with
    | createUser nm e a t => exact Or.inr rfl
    | updateUser uid u =>
      rcases ih (applyOp db (.updateUser uid u)) with h | h
      · exact Or.inl h
      · exact Or.inr (by rw [show userIdsOf db (DbOp.updateUser uid u :: ops) =
          userIdsOf (applyOp db (.updateUser uid u)) ops from rfl, h, applyOp,
          next_user_id_update])
    | deleteUser uid =>
      rcases ih (applyOp db (.deleteUser uid)) with h | h
      · exact Or.inl h
      · exact Or.inr (by rw [show userIdsOf db (DbOp.deleteUser uid :: ops) =
          userIdsOf (applyOp db (.deleteUser uid)) ops from rfl, h, applyOp,
          next_user_id_delete])
    | createPost t c a n =>
      rcases ih (applyOp db (.createPost t c a n)) with h | h
      · exact Or.inl h
      · exact Or.inr (by rw [show userIdsOf db (DbOp.createPost t c a n :: ops) =
          userIdsOf (applyOp db (.createPost t c a n)) ops from rfl, h, applyOp,
          next_user_id_create_post])

theorem head?_postIdsOf (ops : List DbOp) (db : Database) :
    postIdsOf db ops = [] ∨ (postIdsOf db ops).head? = some db.next_post_id := by
  induction ops generalizing db with
  | nil => exact Or.inl rfl
  | cons op ops ih =>
    cases op with
    | createUser nm e a t =>
      rcases ih (applyOp db (.createUser nm e a t)) with h | h
      · exact Or.inl h
      · exact Or.inr (by rw [show postIdsOf db (DbOp.createUser nm e a t :: ops) =
          postIdsOf (applyOp db (.createUser nm e a t)) ops from rfl, h, applyOp,
          next_post_id_create_user])
    | updateUser uid u =>
      rcases ih (applyOp db (.updateUser uid u)) with h | h
      · exact Or.inl h
      · exact Or.inr (by rw [show postIdsOf db (DbOp.updateUser uid u :: ops) =
          postIdsOf (applyOp db (.updateUser uid u)) ops from rfl, h, applyOp,
          next_post_id_update])
    | deleteUser uid =>
      rcases ih (applyOp db (.deleteUser uid)) with h | h
      · exact Or.inl h
      · exact Or.inr (by rw [show postIdsOf db (DbOp.deleteUser uid :: ops) =
          postIdsOf (applyOp db (.deleteUser uid)) ops from rfl, h, applyOp,
          next_post_id_delete])
    | createPost t c a n =>
      by_cases hmem : valueKeyMem a db.users
      · rw [postIdsOf, if_pos hmem]
        exact Or.inr rfl
      · rw [postIdsOf, if_neg hmem]
        rcases ih (applyOp db (.createPost t c a n)) with h | h
        · exact Or.inl h
        · exact Or.inr (by rw [h, applyOp, next_post_id_create_post, if_neg hmem])

/-! ### Retry-loop lemmas -/

theorem retryAux_result_some (f : Nat → Dict) (m : Nat) (remaining : Nat) :
    ∀ (attempt sleeps : Nat), attempt + remaining = m → 1 ≤ remaining →
      ∃ i, attempt ≤ i ∧ i < m ∧
        (retryAux f m remaining attempt sleeps).result = some (f i) := by
  induction remaining with
  | zero => intro attempt sleeps _ h; omega
  | succ r ih =>
    intro attempt sleeps hinv _
    by_cases hcond : (shouldRetry (f attempt) && decide (attempt + 1 < m)) = true
    · have hlt : attempt + 1 < m := by
        have h2 := (Bool.and_eq_true _ _).mp hcond
        exact of_decide_eq_true h2.2
      obtain ⟨i, h1, h2, h3⟩ := ih (attempt + 1) (sleeps + 1) (by omega) (by omega)
      refine ⟨i, by omega, h2, ?_⟩
      rw [retryAux, if_pos hcond]
      exact h3
    · refine ⟨attempt, Nat.le_refl _, by omega, ?_⟩
      rw [retryAux, if_neg hcond]

/-! ### Message-substring helper lemmas -/

theorem containsSub_prefix_marker (pre marker tail d : String)
    (hsplit : pre.data = marker.data ++ tail.data) :
    containsSub (pre ++ d).data marker.data = true := by
  rw [String.data_append, hsplit, List.append_assoc]
  exact containsSub_append_self _ _

theorem containsSub_skip_head (pre d : String) (c : Char) (n : List Char)
    (hc : c ∉ pre.data) :
    containsSub ((pre ++ d)).data (c :: n) = containsSub d.data (c :: n) := by
  rw [String.data_append]
  exact containsSub_append_not_head pre.data d.data c n hc

/-! ### Claim theorems -/

/-- C1: the claim says that creating a user and then fetching it by the
returned id in a later request yields the created object, the store
persisting for the process lifetime.  The code instead constructs a fresh
`Database` inside `HTTPRequestHandler.__init__`, i.e. per served request:
a `POST /users` that reports id 1 is followed by a `GET /users/1` that
answers 404 "User not found", and `GET /users` lists nothing. -/
theorem C1_store_reset_per_request :
    handleRequest ⟨.POST, ["users"],
        some [("name", .str "Alice"), ("email", .str "a@x.com"), ("age", .int 28)]⟩ 5 =
      some ⟨201, [("success", .bool true),
                  ("message", .str "User created successfully"),
                  ("data", .dict [("id", .int 1), ("name", .str "Alice"),
                                  ("email", .str "a@x.com"), ("age", .int 28),
                                  ("created_at", .time 5)])]⟩ ∧
    handleRequest ⟨.GET, ["users", "1"], none⟩ 6 = some (errResp "User not found" 404 6) ∧
    handleRequest ⟨.GET, ["users"], none⟩ 7 =
      some ⟨200, [("success", .bool true), ("data", .list []), ("count", .int 0)]⟩ :=
  ⟨rfl, rfl, rfl⟩

/-- C2 counterexample: the claim says `id` and `created_at` are never
overwritten by a `PUT` payload.  Updating the freshly created user 1 with
a payload carrying `id` and `created_at` returns (and stores) a record
whose `id` is 99 and whose `created_at` is the payload's value. -/
theorem C2_counterexample :
    do_PUT ((Database.init.create_user (.str "Alice") (.str "a@x.com") .null 3).2)
      ["users", "1"] (some [("id", .int 99), ("created_at", .time 77)]) 4 =
    (⟨[(1, [("id", .int 99), ("name", .str "Alice"), ("email", .str "a@x.com"),
            ("age", .null), ("created_at", .time 77)])], [], 2, 1⟩,
     some ⟨200, [("success", .bool true),
                 ("message", .str "User updated successfully"),
                 ("data", .dict [("id", .int 99), ("name", .str "Alice"),
                                 ("email", .str "a@x.com"), ("age", .null),
                                 ("created_at", .time 77)])]⟩) := rfl

/-- C2 amended: a `PUT` update of an existing user merges the payload into
the stored record with `dict.update`: every field not supplied is
preserved, and every supplied field — `id` and `created_at` included — is
overwritten with the payload's value. -/
theorem C2_update_merge (db : Database) (user_id : Int) (updates old : Dict)
    (hold : db.get_user user_id = some old)
    (hnd : (updates.map Prod.fst).Nodup) :
    (db.update_user user_id updates).1 = some (dictUpdate old updates) ∧
    (∀ k, k ∉ updates.map Prod.fst →
      dictGet (dictUpdate old updates) k = dictGet old k) ∧
    (∀ k v, (k, v) ∈ updates → dictGet (dictUpdate old updates) k = some v) := by
  refine ⟨?_, fun k hk => dictGet_dictUpdate_not_mem old updates k hk,
            fun k v hm => dictGet_dictUpdate_mem old updates k v hm hnd⟩
  unfold Database.update_user
  have hold' : alistGet db.users user_id = some old := hold
  rw [hold']

/-- Witness for `C2_update_merge` at a concrete store and payload. -/
theorem C2_update_merge_witness :
    ((Database.init.create_user (.str "Alice") (.str "a@x.com") .null 3).2).get_user 1 =
      some [("id", .int 1), ("name", .str "Alice"), ("email", .str "a@x.com"),
            ("age", .null), ("created_at", .time 3)] ∧
    (([("name", .str "Bob"), ("id", .int 7)] : Dict).map Prod.fst).Nodup ∧
    ((((Database.init.create_user (.str "Alice") (.str "a@x.com") .null 3).2).update_user 1
        [("name", .str "Bob"), ("id", .int 7)]).1 =
      some (dictUpdate [("id", .int 1), ("name", .str "Alice"), ("email", .str "a@x.com"),
                        ("age", .null), ("created_at", .time 3)]
            [("name", .str "Bob"), ("id", .int 7)]) ∧
     (∀ k, k ∉ ([("name", .str "Bob"), ("id", .int 7)] : Dict).map Prod.fst →
       dictGet (dictUpdate [("id", .int 1), ("name", .str "Alice"), ("email", .str "a@x.com"),
                            ("age", .null), ("created_at", .time 3)]
                [("name", .str "Bob"), ("id", .int 7)]) k =
       dictGet [("id", .int 1), ("name", .str "Alice"), ("email", .str "a@x.com"),
                ("age", .null), ("created_at", .time 3)] k) ∧
     (∀ k v, (k, v) ∈ ([("name", .str "Bob"), ("id", .int 7)] : Dict) →
       dictGet (dictUpdate [("id", .int 1), ("name", .str "Alice"), ("email", .str "a@x.com"),
                            ("age", .null), ("created_at", .time 3)]
                [("name", .str "Bob"), ("id", .int 7)]) k = some v)) :=
  ⟨rfl, by decide,
   C2_update_merge _ 1 [("name", .str "Bob"), ("id", .int 7)] _ rfl (by decide)⟩

/-- C3: the claim says every unmatched request receives exactly one 404
response.  In `do_GET` the `users`/`posts` branches have no final `else`,
so `GET /users/1/x`, `GET /users/1/2/3` and `GET /posts/1/extra` fall
through and NO response is sent at all; only an unmatched first segment
reaches the 404 branch (whose message is "Endpoint not found"). -/
theorem C3_unmatched_subpath_sends_nothing (db : Database) (now : Nat) :
    do_GET db ["users", "1", "x"] now = none ∧
    do_GET db ["users", "1", "2", "3"] now = none ∧
    do_GET db ["posts", "1", "extra"] now = none ∧
    do_GET db ["nonsense"] now = some (errResp "Endpoint not found" 404 now) :=
  ⟨rfl, rfl, rfl, rfl⟩

/-- C4 counterexample: the claim says a present, non-null `author_id` —
including the falsy value 0 — is not rejected by validation.  The router
checks `not author_id`, so `author_id = 0` yields the 400 validation error
before the Store is consulted. -/
theorem C4_counterexample :
    do_POST Database.init ["posts"]
      (some [("title", .str "T"), ("content", .str "C"), ("author_id", .int 0)]) 9 =
    (Database.init, some (errResp "Title, content, and author_id are required" 400 9)) := rfl

/-- C4 amended: for a body whose `title`, `content` and `author_id` are all
truthy, no validation error is raised; when that `author_id` matches no
existing user key the outcome is the Store-mediated 404 "Author not
found", distinct from the 400 validation error. -/
theorem C4_truthy_author_missing_404 (db : Database) (title content author_id : Value)
    (now : Nat) (h1 : truthy title = true) (h2 : truthy content = true)
    (h3 : truthy author_id = true) (h4 : valueKeyMem author_id db.users = false) :
    do_POST db ["posts"]
      (some [("title", title), ("content", content), ("author_id", author_id)]) now =
    (db, some (errResp "Author not found" 404 now)) := by
  simp [do_POST, pyGet, dictGet, alistGet, h1, h2, h3, Database.create_post, h4]

/-- Witness for `C4_truthy_author_missing_404`: author id 5 against the
empty store. -/
theorem C4_truthy_author_missing_404_witness :
    truthy (.str "T") = true ∧ truthy (.str "C") = true ∧ truthy (.int 5) = true ∧
    valueKeyMem (.int 5) Database.init.users = false ∧
    do_POST Database.init ["posts"]
      (some [("title", .str "T"), ("content", .str "C"), ("author_id", .int 5)]) 2 =
    (Database.init, some (errResp "Author not found" 404 2)) :=
  ⟨rfl, rfl, rfl, rfl, C4_truthy_author_missing_404 Database.init _ _ _ 2 rfl rfl rfl rfl⟩

/-- C5: with `max_retries = 3` and every attempt returning a 503 result,
`_request_with_retry` performs exactly 3 attempts, sleeps the fixed
`retry_delay` exactly twice (once between each pair of consecutive
attempts), and returns the third attempt's result unchanged. -/
theorem C5_three_attempts_two_delays (f : Nat → Dict)
    (h : ∀ i, dictGet (f i) "_status_code" = some (.int 503)) :
    requestWithRetry f 3 = ⟨3, 2, some (f 2)⟩ := by
  have hr : ∀ i, shouldRetry (f i) = true := by
    intro i
    simp [shouldRetry, dictGetD, h i, valueGe500]
  simp [requestWithRetry, retryAux, hr]

/-- Witness attempts for `C5_three_attempts_two_delays`: every `_request`
outcome is a bare 503 result. -/
def attempt503 : Nat → Dict := fun _ => [("_status_code", .int 503)]

/-- Witness for `C5_three_attempts_two_delays`. -/
theorem C5_three_attempts_two_delays_witness :
    (∀ i, dictGet (attempt503 i) "_status_code" = some (.int 503)) ∧
    requestWithRetry attempt503 3 = ⟨3, 2, some (attempt503 2)⟩ :=
  ⟨fun _ => rfl, C5_three_attempts_two_delays attempt503 (fun _ => rfl)⟩

/-- C6 counterexample: the claim says an outcome classified as a TLS error
is never retried.  The code greps the stringified `error` field for the
substrings `Connection Error` and `Timeout`, so an `SSLError` whose
detail string mentions `Timeout` does trigger a retry. -/
theorem C6_counterexample :
    shouldRetry (clientRequest (.sslError "Timeout during TLS handshake")) = true := by rfl

/-- C6 amended: retry is decided by `status >= 500` plus substring tests on
the error message.  For every outcome whose free-form detail (and, for a
delivered response, whose body) does not itself contain the marker
substrings, this coincides with the claimed classification: retry exactly
for status at least 500, connection errors and timeouts; TLS and generic
errors and sub-500 responses are not retried. -/
theorem C6_retry_matches_classification (tr : TransportResult) (h : benign tr) :
    shouldRetry (clientRequest tr) = retrySpecTrigger tr := by
  cases tr with
  | sslError d =>
    obtain ⟨h1, h2⟩ := h
    show (valueGe500 (dictGetD _ "_status_code" (.int 0)) ||
          containsSub (pyStr (dictGetD _ "error" (.str ""))).data "Connection Error".data ||
          containsSub (pyStr (dictGetD _ "error" (.str ""))).data "Timeout".data) = false
    have he : dictGetD (clientRequest (.sslError d)) "error" (.str "") =
        .str ("SSL Error: " ++ d) := rfl
    rw [he]
    have hCE : containsSub (pyStr (.str ("SSL Error: " ++ d))).data "Connection Error".data =
        containsSub d.data "Connection Error".data := by
      rw [show "Connection Error".data = 'C' :: "onnection Error".data from rfl]
      exact containsSub_skip_head "SSL Error: " d 'C' _ (by decide)
    have hTO : containsSub (pyStr (.str ("SSL Error: " ++ d))).data "Timeout".data =
        containsSub d.data "Timeout".data := by
      rw [show "Timeout".data = 'T' :: "imeout".data from rfl]
      exact containsSub_skip_head "SSL Error: " d 'T' _ (by decide)
    rw [hCE, hTO, h1, h2]
    rfl
  | connectionError d =>
    show shouldRetry _ = true
    have he : dictGetD (clientRequest (.connectionError d)) "error" (.str "") =
        .str ("Connection Error: " ++ d) := rfl
    have hCE : containsSub (pyStr (.str ("Connection Error: " ++ d))).data
        "Connection Error".data = true :=
      containsSub_prefix_marker "Connection Error: " "Connection Error" ": " d rfl
    rw [shouldRetry, he, hCE]
    simp
  | timeoutErr d =>
    show shouldRetry _ = true
    have he : dictGetD (clientRequest (.timeoutErr d)) "error" (.str "") =
        .str ("Timeout Error: " ++ d) := rfl
    have hTO : containsSub (pyStr (.str ("Timeout Error: " ++ d))).data
        "Timeout".data = true :=
      containsSub_prefix_marker "Timeout Error: " "Timeout" " Error: " d rfl
    rw [shouldRetry, he, hTO]
    simp
  | otherError d =>
    obtain ⟨h1, h2⟩ := h
    show (valueGe500 (dictGetD _ "_status_code" (.int 0)) ||
          containsSub (pyStr (dictGetD _ "error" (.str ""))).data "Connection Error".data ||
          containsSub (pyStr (dictGetD _ "error" (.str ""))).data "Timeout".data) = false
    have he : dictGetD (clientRequest (.otherError d)) "error" (.str "") =
        .str ("Request Error: " ++ d) := rfl
    rw [he]
    have hCE : containsSub (pyStr (.str ("Request Error: " ++ d))).data "Connection Error".data =
        containsSub d.data "Connection Error".data := by
      rw [show "Connection Error".data = 'C' :: "onnection Error".data from rfl]
      exact containsSub_skip_head "Request Error: " d 'C' _ (by decide)
    have hTO : containsSub (pyStr (.str ("Request Error: " ++ d))).data "Timeout".data =
        containsSub d.data "Timeout".data := by
      rw [show "Timeout".data = 'T' :: "imeout".data from rfl]
      exact containsSub_skip_head "Request Error: " d 'T' _ (by decide)
    rw [hCE, hTO, h1, h2]
    rfl
  | response st body =>
    cases body with
    | jsonDict d =>
      have hst : dictGet (clientRequest (.response st (.jsonDict d))) "_status_code" =
          some (.int st) := by
        show dictGet (dictUpdate d _) "_status_code" = some (.int st)
        refine dictGet_dictUpdate_mem d _ "_status_code" (.int st) ?_ ?_
        · simp
        · simp
      have herr : dictGet (clientRequest (.response st (.jsonDict d))) "error" =
          dictGet d "error" := by
        show dictGet (dictUpdate d _) "error" = dictGet d "error"
        refine dictGet_dictUpdate_not_mem d _ "error" ?_
        simp
      show (valueGe500 (dictGetD _ "_status_code" (.int 0)) ||
            containsSub (pyStr (dictGetD _ "error" (.str ""))).data "Connection Error".data ||
            containsSub (pyStr (dictGetD _ "error" (.str ""))).data "Timeout".data) =
        decide (500 ≤ st)
      simp only [dictGetD]
      rw [hst, herr]
      have hv : valueGe500 ((some (Value.int st)).getD (.int 0)) = decide (500 ≤ st) := by
        simp [valueGe500]
      rw [hv]
      have hb : (match dictGet d "error" with
        | none => True
        | some (.str s) => benignDetail s
        | some _ => False) := h
      rcases hcase : dictGet d "error" with _ | v
      · simp [pyStr, containsSub]
      · rw [hcase] at hb
        cases v with
        | str s =>
          obtain ⟨h1, h2⟩ := hb
          show (decide (500 ≤ st) || containsSub s.data "Connection Error".data ||
                containsSub s.data "Timeout".data) = decide (500 ≤ st)
          rw [h1, h2]
          simp
        | null => exact (hb : False).elim
        | bool b => exact (hb : False).elim
        | int n => exact (hb : False).elim
        | time t => exact (hb : False).elim
        | list xs => exact (hb : False).elim
        | dict dd => exact (hb : False).elim
    | notJson text =>
      show (valueGe500 (dictGetD _ "_status_code" (.int 0)) ||
            containsSub (pyStr (dictGetD _ "error" (.str ""))).data "Connection Error".data ||
            containsSub (pyStr (dictGetD _ "error" (.str ""))).data "Timeout".data) =
        decide (500 ≤ st)
      have hst : dictGetD (clientRequest (.response st (.notJson text))) "_status_code"
          (.int 0) = .int st := rfl
      have herr : dictGetD (clientRequest (.response st (.notJson text))) "error"
          (.str "") = .str "" := rfl
      rw [hst, herr]
      have hv : valueGe500 (Value.int st) = decide (500 ≤ st) := by simp [valueGe500]
      rw [hv]
      simp [pyStr, containsSub]
    | jsonNonDict v => cases h

/-- Witness for `C6_retry_matches_classification`: a TLS failure whose
detail does not mention the marker substrings is not retried. -/
theorem C6_retry_matches_classification_witness :
    benign (.sslError "certificate verify failed") ∧
    shouldRetry (clientRequest (.sslError "certificate verify failed")) =
      retrySpecTrigger (.sslError "certificate verify failed") :=
  ⟨⟨rfl, rfl⟩, C6_retry_matches_classification _ ⟨rfl, rfl⟩⟩

/-- C7 counterexample: the claim says every received response gets
`_status_code` and `_success` attached.  A delivered 200 response whose
body is the JSON array `[]` is returned as a generic `Request Error`
dict (the `.update` call raised) carrying no status information. -/
theorem C7_counterexample :
    clientRequest (.response 200 (.jsonNonDict (.list []))) =
      [("success", .bool false),
       ("error", .str "Request Error: 'list' object has no attribute 'update'")] ∧
    dictGet (clientRequest (.response 200 (.jsonNonDict (.list [])))) "_status_code" = none :=
  ⟨rfl, rfl⟩

/-- C7 amended: `_request` is a total function into result dicts (never
raising), classifying transport faults in the priority order TLS /
connection / timeout / generic with the corresponding messages; a
delivered response whose body parses as a JSON object, or fails to parse,
carries `_status_code` and `_success = (status < 400)`; a body parsing as
non-object JSON instead produces the generic error dict without status. -/
theorem C7_request_normalizes_outcomes :
    (∀ d, clientRequest (.sslError d) =
      [("success", .bool false), ("error", .str ("SSL Error: " ++ d)),
       ("suggestion", .str "Try using --no-verify-ssl or provide correct certificate")]) ∧
    (∀ d, clientRequest (.connectionError d) =
      [("success", .bool false), ("error", .str ("Connection Error: " ++ d)),
       ("suggestion", .str "Check if server is running and URL is correct")]) ∧
    (∀ d, clientRequest (.timeoutErr d) =
      [("success", .bool false), ("error", .str ("Timeout Error: " ++ d)),
       ("suggestion", .str "Increase timeout or check network connection")]) ∧
    (∀ d, clientRequest (.otherError d) =
      [("success", .bool false), ("error", .str ("Request Error: " ++ d))]) ∧
    (∀ st d, dictGet (clientRequest (.response st (.jsonDict d))) "_status_code" =
        some (.int st) ∧
      dictGet (clientRequest (.response st (.jsonDict d))) "_success" =
        some (.bool (decide (st < 400)))) ∧
    (∀ st text, clientRequest (.response st (.notJson text)) =
      [("raw_response", .str text), ("_status_code", .int st),
       ("_success", .bool (decide (st < 400)))]) ∧
    (∀ st v, clientRequest (.response st (.jsonNonDict v)) =
      [("success", .bool false),
       ("error", .str ("Request Error: " ++ attrErrorMessage v))]) := by
  refine ⟨fun d => rfl, fun d => rfl, fun d => rfl, fun d => rfl, ?_,
          fun st text => rfl, fun st v => rfl⟩
  intro st d
  constructor
  · show dictGet (dictUpdate d _) "_status_code" = some (.int st)
    refine dictGet_dictUpdate_mem d _ "_status_code" (.int st) ?_ ?_
    · simp
    · simp
  · show dictGet (dictUpdate d _) "_success" = some (.bool (decide (st < 400)))
    refine dictGet_dictUpdate_mem d _ "_success" (.bool (decide (st < 400))) ?_ ?_
    · simp
    · simp

/-- C8: along every sequence of Store calls against one `Database`
instance, the user ids and the post ids handed out by the create
operations are strictly increasing in creation order (hence never reused,
each strictly above all earlier ones, deletions notwithstanding), and the
first id of each family is 1. -/
theorem C8_ids_strictly_increasing (ops : List DbOp) :
    List.Pairwise (· < ·) (userIdsOf Database.init ops) ∧
    List.Pairwise (· < ·) (postIdsOf Database.init ops) ∧
    (userIdsOf Database.init ops = [] ∨ (userIdsOf Database.init ops).head? = some 1) ∧
    (postIdsOf Database.init ops = [] ∨ (postIdsOf Database.init ops).head? = some 1) :=
  ⟨pairwise_userIdsOf ops _, pairwise_postIdsOf ops _,
   head?_userIdsOf ops _, head?_postIdsOf ops _⟩

/-- C9: for every path id that parses as an integer,
`GET /users/{id}/posts` answers 200 with exactly the posts whose
`author_id` equals that integer and a `count` equal to that list's
length — with no user-existence check, so a missing user yields 200 with
an empty list. -/
theorem C9_user_posts_always_200 (db : Database) (s : String) (i : Int) (now : Nat)
    (h : pyInt? s = some i) :
    do_GET db ["users", s, "posts"] now =
      some ⟨200, [("success", .bool true),
                  ("data", .list ((db.get_user_posts i).map .dict)),
                  ("count", .int (db.get_user_posts i).length)]⟩ := by
  have hred : do_GET db ["users", s, "posts"] now =
      (match pyInt? s with
       | some user_id =>
         some ⟨200, [("success", .bool true),
                     ("data", .list ((db.get_user_posts user_id).map .dict)),
                     ("count", .int (db.get_user_posts user_id).length)]⟩
       | none => some (errResp "Invalid user ID" 400 now)) := rfl
  rw [hred, h]

/-- Witness for `C9_user_posts_always_200`: id 7 against the empty store
(no such user) still answers 200 with an empty list and count 0. -/
theorem C9_user_posts_always_200_witness :
    pyInt? "7" = some 7 ∧
    do_GET Database.init ["users", "7", "posts"] 0 =
      some ⟨200, [("success", .bool true), ("data", .list []), ("count", .int 0)]⟩ :=
  ⟨rfl, C9_user_posts_always_200 Database.init "7" 7 0 rfl⟩

/-- C10: `_request_with_retry` returns some attempt's outcome exactly when
`max_retries` is at least 1; with `max_retries = 0` the `for` loop body
never runs and the trailing `return result` reads an unbound local, so no
result dict is produced (an `UnboundLocalError` is raised instead). -/
theorem C10_zero_retries_raises (f : Nat → Dict) (m : Nat) :
    (m = 0 → (requestWithRetry f m).result = none) ∧
    (1 ≤ m → ∃ i, i < m ∧ (requestWithRetry f m).result = some (f i)) := by
  constructor
  · intro h
    subst h
    rfl
  · intro h
    obtain ⟨i, _, h2, h3⟩ := retryAux_result_some f m m 0 0 (by omega) h
    exact ⟨i, h2, h3⟩

/-- Witness for `C10_zero_retries_raises` at `max_retries` 0 and 2. -/
theorem C10_zero_retries_raises_witness :
    (requestWithRetry attempt503 0).result = none ∧
    (1 ≤ 2 ∧ ∃ i, i < 2 ∧ (requestWithRetry attempt503 2).result = some (attempt503 i)) :=
  ⟨(C10_zero_retries_raises attempt503 0).1 rfl,
   ⟨by decide, (C10_zero_retries_raises attempt503 2).2 (by decide)⟩⟩
